import Mathlib

/-!
Shallow embedding of the `struct-pad` library (`src/lib.rs`).

The library defines five padding types (`PadU0`, `PadU8`, `PadU16`, `PadU32`,
`PadU64`), each a wrapper with exactly one inhabitant, a sealed trait `Pad`
exposing the unique value as the constant `VALUE`, and a pointer-width alias
`PadUsize` selected by `target_pointer_width`.

Values and operations are embedded directly from the source:
  * each `PadUWInner` single-variant enum becomes a one-constructor inductive,
    with its declared discriminant (`VALUE = 0`) as an explicit function;
  * each public wrapper struct becomes a one-field structure;
  * `Clone::clone`, `Default::default`, `PartialEq::eq`, `Ord::cmp`,
    `PartialOrd::partial_cmp` and `Hash::hash` are translated body by body
    (Rust's `Ordering::Less/Equal/Greater` is Lean's `Ordering.lt/eq/gt`;
    a hasher is modelled as an opaque accumulated state of an arbitrary type,
    which `hash` — whose Rust body is empty — returns unchanged);
  * the non-exported `private::Sealed` marker trait becomes a closed inductive
    predicate on types whose constructors are exactly the five `impl Sealed`
    lines of `mod private`;
  * the `PadUsize` alias becomes a function from the target pointer width to
    the selected type, `none` for widths with no `cfg` arm (a build error).
-/

namespace StructPad

/-- From `#[repr(u8)] enum PadU8Inner { VALUE = 0 }`: a single-variant enum. -/
inductive PadU8Inner : Type where
  | VALUE : PadU8Inner

/-- The declared discriminant of each `PadU8Inner` variant (`VALUE = 0`). -/
def PadU8Inner.discriminant : PadU8Inner → Nat
  | .VALUE => 0

/-- From `#[repr(u16)] enum PadU16Inner { VALUE = 0 }`. -/
inductive PadU16Inner : Type where
  | VALUE : PadU16Inner

/-- The declared discriminant of each `PadU16Inner` variant (`VALUE = 0`). -/
def PadU16Inner.discriminant : PadU16Inner → Nat
  | .VALUE => 0

/-- From `#[repr(u32)] enum PadU32Inner { VALUE = 0 }`. -/
inductive PadU32Inner : Type where
  | VALUE : PadU32Inner

/-- The declared discriminant of each `PadU32Inner` variant (`VALUE = 0`). -/
def PadU32Inner.discriminant : PadU32Inner → Nat
  | .VALUE => 0

/-- From `#[repr(u64)] enum PadU64Inner { VALUE = 0 }`. -/
inductive PadU64Inner : Type where
  | VALUE : PadU64Inner

/-- The declared discriminant of each `PadU64Inner` variant (`VALUE = 0`). -/
def PadU64Inner.discriminant : PadU64Inner → Nat
  | .VALUE => 0

/-- From `pub struct PadU0(());`: a tuple struct around the unit type. -/
structure PadU0 : Type where
  inner : Unit

/-- From `#[repr(transparent)] pub struct PadU8(PadU8Inner);`. -/
structure PadU8 : Type where
  inner : PadU8Inner

/-- From `#[repr(transparent)] pub struct PadU16(PadU16Inner);`. -/
structure PadU16 : Type where
  inner : PadU16Inner

/-- From `#[repr(transparent)] pub struct PadU32(PadU32Inner);`. -/
structure PadU32 : Type where
  inner : PadU32Inner

/-- From `#[repr(transparent)] pub struct PadU64(PadU64Inner);`. -/
structure PadU64 : Type where
  inner : PadU64Inner

/-- From `mod private { pub trait Sealed {} ... }`: the closed set of
`impl Sealed for _` lines, exactly one constructor per `impl`.  `mod private`
is not `pub`, so no implementation outside these five can exist; the
closedness of this inductive predicate embeds that closure. -/
inductive Sealed : Type → Prop where
  | padU0 : Sealed PadU0
  | padU8 : Sealed PadU8
  | padU16 : Sealed PadU16
  | padU32 : Sealed PadU32
  | padU64 : Sealed PadU64

/-- From `pub trait Pad: Copy + private::Sealed { const VALUE: Self; }`.
The `Copy` bound is vacuous in the embedding (Lean values copy freely);
the `private::Sealed` supertrait bound is the `sealed` field. -/
class Pad (α : Type) where
  VALUE : α
  sealed : Sealed α

/-- From `impl Pad for PadU0 { const VALUE: Self = Self(()); }`. -/
instance instPadPadU0 : Pad PadU0 where
  VALUE := ⟨()⟩
  sealed := Sealed.padU0

/-- From `impl Pad for PadU8 { const VALUE: Self = Self(PadU8Inner::VALUE); }`. -/
instance instPadPadU8 : Pad PadU8 where
  VALUE := ⟨PadU8Inner.VALUE⟩
  sealed := Sealed.padU8

/-- From `impl Pad for PadU16 { const VALUE: Self = Self(PadU16Inner::VALUE); }`. -/
instance instPadPadU16 : Pad PadU16 where
  VALUE := ⟨PadU16Inner.VALUE⟩
  sealed := Sealed.padU16

/-- From `impl Pad for PadU32 { const VALUE: Self = Self(PadU32Inner::VALUE); }`. -/
instance instPadPadU32 : Pad PadU32 where
  VALUE := ⟨PadU32Inner.VALUE⟩
  sealed := Sealed.padU32

/-- From `impl Pad for PadU64 { const VALUE: Self = Self(PadU64Inner::VALUE); }`. -/
instance instPadPadU64 : Pad PadU64 where
  VALUE := ⟨PadU64Inner.VALUE⟩
  sealed := Sealed.padU64

/-- `impl Clone for PadU0`: `fn clone(&self) -> Self { Self::VALUE }`. -/
def PadU0.clone ( _ : PadU0) : PadU0 := Pad.VALUE

/-- `impl Default for PadU0`: `fn default() -> Self { Self::VALUE }`. -/
def PadU0.default : PadU0 := Pad.VALUE

/-- `impl PartialEq for PadU0`: `fn eq(&self, _: &Self) -> bool { true }`. -/
def PadU0.eq ( _ _ : PadU0) : Bool := true

/-- `impl Ord for PadU0`: `fn cmp(&self, _: &Self) -> Ordering { Ordering::Equal }`. -/
def PadU0.cmp ( _ _ : PadU0) : Ordering := Ordering.eq

/-- `impl PartialOrd for PadU0`:
`fn partial_cmp(&self, _: &Self) -> Option<Ordering> { Some(Ordering::Equal) }`. -/
def PadU0.partial_cmp ( _ _ : PadU0) : Option Ordering := some Ordering.eq

/-- `impl Hash for PadU0`: `fn hash<H: Hasher>(&self, _: &mut H) {}` — the empty
body leaves the hasher state (of any type `σ`) unchanged. -/
def PadU0.hash {σ : Type} ( _ : PadU0) (state : σ) : σ := state

/-- `impl Clone for PadU8`: `fn clone(&self) -> Self { Self::VALUE }`. -/
def PadU8.clone ( _ : PadU8) : PadU8 := Pad.VALUE

/-- `impl Default for PadU8`: `fn default() -> Self { Self::VALUE }`. -/
def PadU8.default : PadU8 := Pad.VALUE

/-- `impl PartialEq for PadU8`: `fn eq(&self, _: &Self) -> bool { true }`. -/
def PadU8.eq ( _ _ : PadU8) : Bool := true

/-- `impl Ord for PadU8`: `fn cmp(&self, _: &Self) -> Ordering { Ordering::Equal }`. -/
def PadU8.cmp ( _ _ : PadU8) : Ordering := Ordering.eq

/-- `impl PartialOrd for PadU8`:
`fn partial_cmp(&self, _: &Self) -> Option<Ordering> { Some(Ordering::Equal) }`. -/
def PadU8.partial_cmp ( _ _ : PadU8) : Option Ordering := some Ordering.eq

/-- `impl Hash for PadU8`: `fn hash<H: Hasher>(&self, _: &mut H) {}`. -/
def PadU8.hash {σ : Type} ( _ : PadU8) (state : σ) : σ := state

/-- `impl Clone for PadU16`: `fn clone(&self) -> Self { Self::VALUE }`. -/
def PadU16.clone ( _ : PadU16) : PadU16 := Pad.VALUE

/-- `impl Default for PadU16`: `fn default() -> Self { Self::VALUE }`. -/
def PadU16.default : PadU16 := Pad.VALUE

/-- `impl PartialEq for PadU16`: `fn eq(&self, _: &Self) -> bool { true }`. -/
def PadU16.eq ( _ _ : PadU16) : Bool := true

/-- `impl Ord for PadU16`: `fn cmp(&self, _: &Self) -> Ordering { Ordering::Equal }`. -/
def PadU16.cmp ( _ _ : PadU16) : Ordering := Ordering.eq

/-- `impl PartialOrd for PadU16`:
`fn partial_cmp(&self, _: &Self) -> Option<Ordering> { Some(Ordering::Equal) }`. -/
def PadU16.partial_cmp ( _ _ : PadU16) : Option Ordering := some Ordering.eq

/-- `impl Hash for PadU16`: `fn hash<H: Hasher>(&self, _: &mut H) {}`. -/
def PadU16.hash {σ : Type} ( _ : PadU16) (state : σ) : σ := state

/-- `impl Clone for PadU32`: `fn clone(&self) -> Self { Self::VALUE }`. -/
def PadU32.clone ( _ : PadU32) : PadU32 := Pad.VALUE

/-- `impl Default for PadU32`: `fn default() -> Self { Self::VALUE }`. -/
def PadU32.default : PadU32 := Pad.VALUE

/-- `impl PartialEq for PadU32`: `fn eq(&self, _: &Self) -> bool { true }`. -/
def PadU32.eq ( _ _ : PadU32) : Bool := true

/-- `impl Ord for PadU32`: `fn cmp(&self, _: &Self) -> Ordering { Ordering::Equal }`. -/
def PadU32.cmp ( _ _ : PadU32) : Ordering := Ordering.eq

/-- `impl PartialOrd for PadU32`:
`fn partial_cmp(&self, _: &Self) -> Option<Ordering> { Some(Ordering::Equal) }`. -/
def PadU32.partial_cmp ( _ _ : PadU32) : Option Ordering := some Ordering.eq

/-- `impl Hash for PadU32`: `fn hash<H: Hasher>(&self, _: &mut H) {}`. -/
def PadU32.hash {σ : Type} ( _ : PadU32) (state : σ) : σ := state

/-- `impl Clone for PadU64`: `fn clone(&self) -> Self { Self::VALUE }`. -/
def PadU64.clone ( _ : PadU64) : PadU64 := Pad.VALUE

/-- `impl Default for PadU64`: `fn default() -> Self { Self::VALUE }`. -/
def PadU64.default : PadU64 := Pad.VALUE

/-- `impl PartialEq for PadU64`: `fn eq(&self, _: &Self) -> bool { true }`. -/
def PadU64.eq ( _ _ : PadU64) : Bool := true

/-- `impl Ord for PadU64`: `fn cmp(&self, _: &Self) -> Ordering { Ordering::Equal }`. -/
def PadU64.cmp ( _ _ : PadU64) : Ordering := Ordering.eq

/-- `impl PartialOrd for PadU64`:
`fn partial_cmp(&self, _: &Self) -> Option<Ordering> { Some(Ordering::Equal) }`. -/
def PadU64.partial_cmp ( _ _ : PadU64) : Option Ordering := some Ordering.eq

/-- `impl Hash for PadU64`: `fn hash<H: Hasher>(&self, _: &mut H) {}`. -/
def PadU64.hash {σ : Type} ( _ : PadU64) (state : σ) : σ := state

/-- From the three `#[cfg(target_pointer_width = ...)] pub type PadUsize = ...;`
alias definitions: the type the alias resolves to on a target of the given
pointer width; `none` when no `cfg` arm applies (the crate then defines no
`PadUsize`, a build-time error for its users). -/
def PadUsize : Nat → Option Type
  | 16 => some PadU16
  | 32 => some PadU32
  | 64 => some PadU64
  | _ => none

end StructPad

namespace StructPad

/-- C1: Each padding type (PadU0, PadU8, PadU16, PadU32, PadU64) has exactly
one value; every instance, however constructed (the `Pad::VALUE` constant,
default-construction, copy, or clone), is that same value, and in particular
`clone` of any instance returns `Pad::VALUE`. -/
theorem unique_value_and_clone :
    ((∀ a b : PadU0, a = b) ∧ ∀ a : PadU0, a.clone = Pad.VALUE) ∧
    ((∀ a b : PadU8, a = b) ∧ ∀ a : PadU8, a.clone = Pad.VALUE) ∧
    ((∀ a b : PadU16, a = b) ∧ ∀ a : PadU16, a.clone = Pad.VALUE) ∧
    ((∀ a b : PadU32, a = b) ∧ ∀ a : PadU32, a.clone = Pad.VALUE) ∧
    ((∀ a b : PadU64, a = b) ∧ ∀ a : PadU64, a.clone = Pad.VALUE) :=
  ⟨⟨fun a b => by cases a; cases b; rfl, fun _ => rfl⟩,
   ⟨fun a b => by
      obtain ⟨ia⟩ := a; obtain ⟨ib⟩ := b; cases ia; cases ib; rfl,
    fun _ => rfl⟩,
   ⟨fun a b => by
      obtain ⟨ia⟩ := a; obtain ⟨ib⟩ := b; cases ia; cases ib; rfl,
    fun _ => rfl⟩,
   ⟨fun a b => by
      obtain ⟨ia⟩ := a; obtain ⟨ib⟩ := b; cases ia; cases ib; rfl,
    fun _ => rfl⟩,
   ⟨fun a b => by
      obtain ⟨ia⟩ := a; obtain ⟨ib⟩ := b; cases ia; cases ib; rfl,
    fun _ => rfl⟩⟩

/-- C2: For every padding type and any two instances `a`, `b`, however
constructed, `eq a b` is `true` and `cmp a b` is `Ordering::Equal`. -/
theorem eq_true_and_cmp_equal :
    (∀ a b : PadU0, PadU0.eq a b = true ∧ PadU0.cmp a b = Ordering.eq) ∧
    (∀ a b : PadU8, PadU8.eq a b = true ∧ PadU8.cmp a b = Ordering.eq) ∧
    (∀ a b : PadU16, PadU16.eq a b = true ∧ PadU16.cmp a b = Ordering.eq) ∧
    (∀ a b : PadU32, PadU32.eq a b = true ∧ PadU32.cmp a b = Ordering.eq) ∧
    (∀ a b : PadU64, PadU64.eq a b = true ∧ PadU64.cmp a b = Ordering.eq) :=
  ⟨fun _ _ => ⟨rfl, rfl⟩, fun _ _ => ⟨rfl, rfl⟩, fun _ _ => ⟨rfl, rfl⟩,
   fun _ _ => ⟨rfl, rfl⟩, fun _ _ => ⟨rfl, rfl⟩⟩

/-- C3: For every padding type, `default()` returns exactly `Pad::VALUE`
(for the non-zero widths this is the value bit-identical to `VALUE`, and for
`PadU0` the unique value). -/
theorem default_eq_VALUE :
    PadU0.default = (Pad.VALUE : PadU0) ∧
    PadU8.default = (Pad.VALUE : PadU8) ∧
    PadU16.default = (Pad.VALUE : PadU16) ∧
    PadU32.default = (Pad.VALUE : PadU32) ∧
    PadU64.default = (Pad.VALUE : PadU64) :=
  ⟨rfl, rfl, rfl, rfl, rfl⟩

/-- C4: For every non-zero width W in {8, 16, 32, 64}, the bit pattern of
`PadW::VALUE` viewed as the width-W unsigned integer is 0: the inner
single-variant enum's sole discriminant is declared `= 0`, so the
reinterpreted value is 0 (and lies within every width). -/
theorem bit_pattern_zero :
    (Pad.VALUE : PadU8).inner.discriminant = 0 ∧
    (Pad.VALUE : PadU16).inner.discriminant = 0 ∧
    (Pad.VALUE : PadU32).inner.discriminant = 0 ∧
    (Pad.VALUE : PadU64).inner.discriminant = 0 :=
  ⟨rfl, rfl, rfl, rfl⟩

/-- C5: For every padding type, `hash` writes nothing into the hasher: for any
hasher state type `σ`, any accumulated state `s` and any instance `a`, the
state after hashing is exactly `s`, so every instance of a given padding type
makes the same (empty) hash contribution. -/
theorem hash_leaves_state_unchanged :
    (∀ (σ : Type) (s : σ) (a : PadU0), a.hash s = s) ∧
    (∀ (σ : Type) (s : σ) (a : PadU8), a.hash s = s) ∧
    (∀ (σ : Type) (s : σ) (a : PadU16), a.hash s = s) ∧
    (∀ (σ : Type) (s : σ) (a : PadU32), a.hash s = s) ∧
    (∀ (σ : Type) (s : σ) (a : PadU64), a.hash s = s) :=
  ⟨fun _ _ _ => rfl, fun _ _ _ => rfl, fun _ _ _ => rfl,
   fun _ _ _ => rfl, fun _ _ _ => rfl⟩

/-- C6: The pointer-width alias `PadUsize` resolves to exactly `PadU64` on a
64-bit target, exactly `PadU32` on a 32-bit target and exactly `PadU16` on a
16-bit target — as a type alias it is literally the selected type, hence
identical to it in every respect. -/
theorem padUsize_resolution :
    PadUsize 64 = some PadU64 ∧
    PadUsize 32 = some PadU32 ∧
    PadUsize 16 = some PadU16 :=
  ⟨rfl, rfl, rfl⟩

/-- C9: The `Pad` trait is sealed: every implementer of `Pad` satisfies the
non-exported `Sealed` marker, and the implementers of `Sealed` are exactly
the five library types, so no sixth type can implement `Pad`. -/
theorem pad_implementers_closed :
    (∀ (α : Type), Pad α → Sealed α) ∧
    (∀ (α : Type), Sealed α →
      α = PadU0 ∨ α = PadU8 ∨ α = PadU16 ∨ α = PadU32 ∨ α = PadU64) :=
  ⟨fun _ inst => inst.sealed,
   fun _ h =>
    match h with
    | .padU0 => Or.inl rfl
    | .padU8 => Or.inr (Or.inl rfl)
    | .padU16 => Or.inr (Or.inr (Or.inl rfl))
    | .padU32 => Or.inr (Or.inr (Or.inr (Or.inl rfl)))
    | .padU64 => Or.inr (Or.inr (Or.inr (Or.inr rfl)))⟩

/-- Witness for C9 at the concrete type `PadU0`: its `Pad` instance yields
`Sealed PadU0`, and the closure theorem places `PadU0` in the five-type set. -/
theorem pad_implementers_closed_witness :
    Sealed PadU0 ∧
    (PadU0 = PadU0 ∨ PadU0 = PadU8 ∨ PadU0 = PadU16 ∨ PadU0 = PadU32 ∨
      PadU0 = PadU64) :=
  ⟨pad_implementers_closed.1 PadU0 instPadPadU0,
   pad_implementers_closed.2 PadU0 Sealed.padU0⟩

/-- C10: For every padding type and any two instances `a`, `b`,
`partial_cmp a b = some (cmp a b)` — always `some Ordering::Equal` — so the
hand-written `PartialOrd` and `Ord` implementations agree. -/
theorem pcmp_agrees_with_cmp :
    (∀ a b : PadU0, PadU0.partial_cmp a b = some (PadU0.cmp a b)) ∧
    (∀ a b : PadU8, PadU8.partial_cmp a b = some (PadU8.cmp a b)) ∧
    (∀ a b : PadU16, PadU16.partial_cmp a b = some (PadU16.cmp a b)) ∧
    (∀ a b : PadU32, PadU32.partial_cmp a b = some (PadU32.cmp a b)) ∧
    (∀ a b : PadU64, PadU64.partial_cmp a b = some (PadU64.cmp a b)) :=
  ⟨fun _ _ => rfl, fun _ _ => rfl, fun _ _ => rfl, fun _ _ => rfl,
   fun _ _ => rfl⟩

end StructPad
